import Mathlib

/-!
# Paginated search handlers (`main_v1.js`, `main_v2.js`)

A shallow embedding of the two Express applications of the repository.

* JavaScript numbers are IEEE binary64 values.  An offset is an `Int` that
  stands for a binary64 value, a count is a `Nat`.  Where the handlers add to
  or subtract from an offset, or `parseInt` converts digits, the exact result
  is rounded to the nearest binary64 value (`roundDouble`, ties to even), and a
  digit string too large for binary64 is an infinite `Offset`.
* The page number `offsetBy / setLimit + 1` and the page count are computed in
  the rationals (`ℚ`).  The comparison `page > 1` has the same result as in
  binary64 at every offset, and `page < totalPages` has for offsets and counts
  of magnitude below `2 ^ 53`.
* `undefined` is `none`.  `NaN` is `none` as well (`parseInt`, `Math.ceil`).
* The MySQL connection pool is an external collaborator.  A handler is a
  function of a `Store`, which says whether a connection can be acquired and
  what each of the two SQL statements answers (`none`: the promise rejects).
  `listStore` is the store whose table is an ordered list of rows.
* A handler returns the store events it caused (`Event`), in order, and how the
  request ended (`Outcome`).
-/

namespace Day06

/-! ## Constants -/

/-- The page size, `const setLimit = 10` (both files). -/
def setLimit : Nat := 10

/-- The window statement, `const SQL_FIND_BY_NAME` (both files). -/
def SQL_FIND_BY_NAME : String := "select * from apps where name like ? limit ? offset ?"

/-- The count statement, `const SQL_TOTAL_RESULTS` of `main_v2.js`; `main_v1.js`
has no `as totalCount` and reads the column `count(*)` instead. -/
def SQL_TOTAL_RESULTS : String := "select count(*) as totalCount from apps where name like ?"

/-! ## The store -/

/-- What the connection pool does during one request.
`getConnection`: whether `pool.getConnection()` resolves.
`find pat limit offset`: the rows of `conn.query(SQL_FIND_BY_NAME, [pat, limit, offset])`.
`count pat`: the number in the single row of `conn.query(SQL_TOTAL_RESULTS, [pat])`.
`none` means that the promise rejects. -/
structure Store (Rec : Type) where
  getConnection : Bool
  find : String → Nat → Int → Option (List Rec)
  count : String → Option Nat

/-- The rows of `select * from apps where name like pat`, in table order. -/
def matching {Rec : Type} (rows : List Rec) (like : String → Rec → Bool) (pat : String) :
    List Rec :=
  rows.filter (like pat)

/-- A store over an ordered list of rows that never fails on its own.
`like pat r` says whether the name of `r` matches the SQL pattern `pat`.
`limit ? offset ?` keeps `limit` rows after skipping `offset`; MySQL rejects
a negative `offset` with a syntax error. -/
def listStore {Rec : Type} (rows : List Rec) (like : String → Rec → Bool) : Store Rec where
  getConnection := true
  find := fun pat limit offset =>
    if offset < 0 then none
    else some (((matching rows like pat).drop offset.toNat).take limit)
  count := fun pat => some (matching rows like pat).length

/-- The template literal `%${q}%`; an absent parameter prints as `undefined`. -/
def likePattern (q : Option String) : String :=
  "%" ++ q.getD "undefined" ++ "%"

/-! ## Numbers -/

/-- The spacing of the binary64 values around `a`, found by doubling `u` until
`a / u` fits in 53 bits; `fuel` bounds the number of doublings. -/
def ulpFrom : Nat → Nat → Nat → Nat
  | 0, u, _ => u
  | fuel + 1, u, a => if a / u < 2 ^ 53 then u else ulpFrom fuel (2 * u) a

/-- The spacing of the binary64 values in the binade of `a`: 1 below `2 ^ 53`,
2 below `2 ^ 54`, and so on.  `a` doublings are always enough. -/
def ulp (a : Nat) : Nat := ulpFrom a 1 a

/-- The multiple of `ulp a` nearest to `a`; of two nearest ones, the one whose
quotient by `ulp a` is even. -/
def roundNat (a : Nat) : Nat :=
  let u := ulp a
  let q := a / u
  let r := a % u
  if 2 * r < u then q * u
  else if u < 2 * r then (q + 1) * u
  else if q % 2 = 0 then q * u else (q + 1) * u

/-- The binary64 value nearest to the integer `n`, ties to even, for a result
in the finite range: the result of `a + b` and `a - b` on integral binary64
operands whose exact sum or difference is `n`. -/
def roundDouble (n : Int) : Int :=
  if n < 0 then -((roundNat n.natAbs : Nat) : Int) else ((roundNat n.natAbs : Nat) : Int)

/-- An integral JavaScript number that is not `NaN`: a finite binary64 value or
an infinity. -/
inductive Offset where
  | finite (n : Int)
  | infinite (negative : Bool)
  deriving DecidableEq, Repr

/-- The number value of the integer of magnitude `v` and the given sign: at
`2 ^ 1024 - 2 ^ 970 = (2 ^ 54 - 1) * 2 ^ 970`, half a spacing above the largest
binary64 value, and beyond, the value is an infinity.  The test is made on
`v / 2 ^ 970`, written as a shift. -/
def numberValue (negative : Bool) (v : Nat) : Offset :=
  if 2 ^ 54 - 1 ≤ v >>> 970 then Offset.infinite negative
  else Offset.finite (roundDouble (if negative then -(v : Int) else (v : Int)))

/-! ## `parseInt` and the offset parameter -/

/-- White space and line terminators that `parseInt` skips at the start. -/
def isStrWhiteSpace (c : Char) : Bool :=
  let n := c.toNat
  n = 9 || n = 10 || n = 11 || n = 12 || n = 13 || n = 32 || n = 160 || n = 5760 ||
  (8192 ≤ n && n ≤ 8202) || n = 8232 || n = 8233 || n = 8239 || n = 8287 ||
  n = 12288 || n = 65279

/-- The value of a digit in radix up to 36. -/
def digitValue (c : Char) : Option Nat :=
  let n := c.toNat
  if 48 ≤ n ∧ n ≤ 57 then some (n - 48)
  else if 97 ≤ n ∧ n ≤ 122 then some (n - 87)
  else if 65 ≤ n ∧ n ≤ 90 then some (n - 55)
  else none

/-- The longest run of leading digits of the radix. -/
def takeDigits (radix : Nat) : List Char → List Nat
  | [] => []
  | c :: cs =>
    match digitValue c with
    | some d => if d < radix then d :: takeDigits radix cs else []
    | none => []

/-- The sign read by `parseInt`: `true` for a leading `-`. -/
def stripSign : List Char → Bool × List Char
  | [] => (false, [])
  | c :: cs =>
    if c.toNat = 45 then (true, cs)
    else if c.toNat = 43 then (false, cs)
    else (false, c :: cs)

/-- The radix read by `parseInt(string)`: 16 after `0x` or `0X`, else 10. -/
def stripRadix : List Char → Nat × List Char
  | a :: b :: cs =>
    if a.toNat = 48 ∧ (b.toNat = 120 ∨ b.toNat = 88) then (16, cs) else (10, a :: b :: cs)
  | cs => (10, cs)

/-- The function `parseInt(string)` with no radix argument; `none` is `NaN`.
The digits denote an integer, and the result is its number value. -/
def parseIntChars (cs : List Char) : Option Offset :=
  let signed := stripSign (cs.dropWhile isStrWhiteSpace)
  let based := stripRadix signed.2
  match takeDigits based.1 based.2 with
  | [] => none
  | d :: ds =>
    some (numberValue signed.1 ((d :: ds).foldl (fun acc x => acc * based.1 + x) 0))

/-- The call `parseInt(req.query[name])`: an absent parameter is `undefined`, which is
converted to the string `undefined` first. -/
def parseInt (param : Option String) : Option Offset :=
  parseIntChars (param.getD "undefined").toList

/-- The offset of a v2 request, `parseInt(req.query[offset]) || 0`: `NaN` and `0`
are falsy. -/
def offsetParam (param : Option String) : Offset :=
  match parseInt param with
  | none => Offset.finite 0
  | some (Offset.finite n) => if n = 0 then Offset.finite 0 else Offset.finite n
  | some (Offset.infinite negative) => Offset.infinite negative

/-! ## Page metadata -/

/-- The page count `Math.ceil(totalResults / setLimit)` for a count the store
returned. -/
def totalPages (totalResults : Nat) : Int :=
  Int.ceil ((totalResults : ℚ) / (setLimit : ℚ))

/-- The page number, `page = offsetBy/setLimit + 1`. -/
def page (offsetBy : Int) : ℚ :=
  (offsetBy : ℚ) / (setLimit : ℚ) + 1

/-- The rendered `prevPage`: the string chosen by `page > 1` is non-empty exactly
when the comparison holds. -/
def prevPage (offsetBy : Int) : Bool :=
  decide (page offsetBy > 1)

/-- The rendered `nextPage`: the string chosen by `page < totalPages` is
non-empty exactly when the comparison holds; with `totalResults` undefined,
`totalPages` is `NaN` and the comparison is false. -/
def nextPage (offsetBy : Int) (totalResults : Option Nat) : Bool :=
  match totalResults with
  | none => false
  | some n => decide (page offsetBy < (totalPages n : ℚ))

/-! ## Events, responses -/

/-- The store events of one request, in the order they happen. -/
inductive Event where
  /-- The promise of `pool.getConnection()` resolved. -/
  | acquire
  /-- The promise of `pool.getConnection()` rejected. -/
  | acquireFail
  /-- A `conn.query` resolved. -/
  | queryOk
  /-- A `conn.query` rejected. -/
  | queryFail
  /-- The `catch` block ran `console.error`. -/
  | logError
  /-- The call `conn.release()` was made on a connection. -/
  | release
  deriving DecidableEq, Repr

/-- The two views the handlers render. -/
inductive ViewName where
  | index
  | result
  deriving DecidableEq, Repr

/-- The errors that can leave a handler. -/
inductive JsError where
  /-- The rejection of a store promise. -/
  | storeError
  /-- A property read or a call on `undefined`. -/
  | typeError
  deriving DecidableEq, Repr

/-- The object given to `resp.render` of the view `result`; a key that is missing or
whose value is `undefined` is `none`. -/
structure Context (Rec : Type) where
  recs : Option (List Rec)
  hasContent : Bool
  prevPage : Option Bool
  nextPage : Option Bool
  q : Option String
  prevOffset : Option Int
  nextOffset : Option Int

/-- How a request ends. -/
inductive Outcome (Rec : Type) where
  /-- The call `resp.render(view, ctx)` was made (once). -/
  | rendered (view : ViewName) (ctx : Option (Context Rec))
  /-- The handler returned without sending anything. -/
  | noResponse
  /-- The handler threw: its promise rejects, nothing catches it. -/
  | uncaught (err : JsError)

/-- The events and the outcome of one request. -/
structure Handled (Rec : Type) where
  trace : List Event
  outcome : Outcome Rec

/-! ## `main_v2.js` -/

/-- The bindings `recs` and `totalResults` after the `try` statement of the v2
`/search` handler, with the events up to there; `thrown` is an error raised by
the `finally` block itself. -/
structure TryV2 (Rec : Type) where
  trace : List Event
  recs : Option (List Rec)
  totalResults : Option Nat
  thrown : Option JsError

/-- Lines 79-103 of `main_v2.js`: `try { getConnection; query; query } catch
{ console.error } finally { conn.release() }`. -/
def tryV2 {Rec : Type} (store : Store Rec) (q : Option String) (offsetBy : Int) : TryV2 Rec :=
  if store.getConnection then
    match store.find (likePattern q) setLimit offsetBy with
    | none =>
      ⟨[Event.acquire, Event.queryFail, Event.logError, Event.release], none, none, none⟩
    | some recs =>
      match store.count (likePattern q) with
      | none =>
        ⟨[Event.acquire, Event.queryOk, Event.queryFail, Event.logError, Event.release],
          some recs, none, none⟩
      | some n =>
        ⟨[Event.acquire, Event.queryOk, Event.queryOk, Event.release], some recs, some n, none⟩
  else
    -- `conn` is still undefined in `finally`: `conn.release()` throws
    ⟨[Event.acquireFail, Event.logError], none, none, some JsError.typeError⟩

/-- Lines 105-129 of `main_v2.js`: the metadata and `resp.render` of the view `result`.
Reading `recs.length` of an undefined `recs` throws before `render` is called.
`offsetBy - setLimit` and `offsetBy + setLimit` are binary64 operations. -/
def renderV2 {Rec : Type} (recs : Option (List Rec)) (totalResults : Option Nat)
    (q : Option String) (offsetBy : Int) : Outcome Rec :=
  match recs with
  | none => Outcome.uncaught JsError.typeError
  | some rs =>
    Outcome.rendered ViewName.result (some
      ⟨some rs, !rs.isEmpty, some (prevPage offsetBy), some (nextPage offsetBy totalResults),
        q, some (roundDouble (offsetBy - setLimit)),
        some (roundDouble (offsetBy + setLimit))⟩)

/-- The v2 `/search` handler after lines 72-73 have read `q` and a finite
`offsetBy`. -/
def searchV2At {Rec : Type} (store : Store Rec) (q : Option String) (offsetBy : Int) :
    Handled Rec :=
  let t := tryV2 store q offsetBy
  match t.thrown with
  | some e => ⟨t.trace, Outcome.uncaught e⟩
  | none => ⟨t.trace, renderV2 t.recs t.totalResults q offsetBy⟩

/-- The query string of a v2 `/search` request. -/
structure QueryV2 where
  q : Option String
  offset : Option String

/-- The v2 `/search` handler after lines 72-73 have read `q` and an infinite
`offsetBy`.  The number is written into the statement as the word `Infinity`,
which is no SQL literal: the window query is rejected, whatever the store
holds, and the handler goes on as `searchV2At` does after a rejected window
query. -/
def searchV2Infinite {Rec : Type} (store : Store Rec) : Handled Rec :=
  if store.getConnection then
    ⟨[Event.acquire, Event.queryFail, Event.logError, Event.release],
      Outcome.uncaught JsError.typeError⟩
  else
    ⟨[Event.acquireFail, Event.logError], Outcome.uncaught JsError.typeError⟩

/-- The v2 handler for `GET /search`. -/
def searchV2 {Rec : Type} (store : Store Rec) (query : QueryV2) : Handled Rec :=
  match offsetParam query.offset with
  | Offset.finite offsetBy => searchV2At store query.q offsetBy
  | Offset.infinite _ => searchV2Infinite store

/-- The v2 handler for `GET /`. -/
def indexV2 {Rec : Type} : Handled Rec :=
  ⟨[], Outcome.rendered ViewName.index none⟩

/-! ## `main_v1.js` -/

/-- The module-level variables `q`, `offsetBy`, `page` of `main_v1.js`. -/
structure StateV1 where
  q : Option String
  offsetBy : Int
  page : ℚ

/-- The initial values: `q` the empty string, `offsetBy = 0`, `page = 1`. -/
def initV1 : StateV1 := ⟨some "", 0, 1⟩

/-- The `try`/`catch`/`finally` statement shared, up to logging, by the v1
handlers `/search` (lines 83-131), `/next` (144-172) and `/prev` (182-211); the
connection has been acquired before it. -/
def tryV1 {Rec : Type} (store : Store Rec) (st : StateV1) : StateV1 × Handled Rec :=
  match store.find (likePattern st.q) setLimit st.offsetBy with
  | none =>
    (st, ⟨[Event.acquire, Event.queryFail, Event.logError, Event.release], Outcome.noResponse⟩)
  | some recs =>
    if !recs.isEmpty then
      match store.count (likePattern st.q) with
      | none =>
        (st, ⟨[Event.acquire, Event.queryOk, Event.queryFail, Event.logError, Event.release],
          Outcome.noResponse⟩)
      | some n =>
        (⟨st.q, st.offsetBy, page st.offsetBy⟩,
          ⟨[Event.acquire, Event.queryOk, Event.queryOk, Event.release],
            Outcome.rendered ViewName.result (some
              ⟨some recs, !recs.isEmpty, some (prevPage st.offsetBy),
                some (nextPage st.offsetBy (some n)), none, none, none⟩)⟩)
    else
      (st, ⟨[Event.acquire, Event.queryOk, Event.release],
        Outcome.rendered ViewName.result (some ⟨none, !recs.isEmpty, none, none, none, none, none⟩)⟩)

/-- The v1 handler for `GET /`: resets `offsetBy` and `q`. -/
def indexV1 {Rec : Type} (st : StateV1) : StateV1 × Handled Rec :=
  (⟨some "", 0, st.page⟩, ⟨[], Outcome.rendered ViewName.index none⟩)

/-- The v1 handler for `GET /search`: `q = req.query.search`, then
`pool.getConnection()` outside the `try`. -/
def searchV1 {Rec : Type} (store : Store Rec) (st : StateV1) (search : Option String) :
    StateV1 × Handled Rec :=
  let st1 : StateV1 := ⟨search, st.offsetBy, st.page⟩
  if store.getConnection then tryV1 store st1
  else (st1, ⟨[Event.acquireFail], Outcome.uncaught JsError.storeError⟩)

/-- The v1 handler for `GET /next`: `offsetBy += setLimit`, a binary64
addition, once the connection is there. -/
def nextV1 {Rec : Type} (store : Store Rec) (st : StateV1) : StateV1 × Handled Rec :=
  if store.getConnection then
    tryV1 store ⟨st.q, roundDouble (st.offsetBy + setLimit), st.page⟩
  else (st, ⟨[Event.acquireFail], Outcome.uncaught JsError.storeError⟩)

/-- The v1 handler for `GET /prev`: `offsetBy -= setLimit`, a binary64
subtraction, once the connection is there. -/
def prevV1 {Rec : Type} (store : Store Rec) (st : StateV1) : StateV1 × Handled Rec :=
  if store.getConnection then
    tryV1 store ⟨st.q, roundDouble (st.offsetBy - setLimit), st.page⟩
  else (st, ⟨[Event.acquireFail], Outcome.uncaught JsError.storeError⟩)

/-- A request to the v1 application. -/
inductive RequestV1 where
  | index
  | search (term : Option String)
  | next
  | prev

/-- One v1 request. -/
def stepV1 {Rec : Type} (store : Store Rec) (st : StateV1) : RequestV1 → StateV1 × Handled Rec
  | RequestV1.index => indexV1 st
  | RequestV1.search term => searchV1 store st term
  | RequestV1.next => nextV1 store st
  | RequestV1.prev => prevV1 store st

/-- The module state after a sequence of v1 requests, one after the other. -/
def runV1 {Rec : Type} (store : Store Rec) (st : StateV1) : List RequestV1 → StateV1
  | [] => st
  | r :: rs => runV1 store (stepV1 store st r).1 rs

/-! ## Concrete stores -/

/-- A table of fifty rows, numbered from 0 in table order. -/
def demoRows : List Nat := List.range 50

/-- The rows with an even number are the ones whose name contains `cam`; no
name matches another pattern. -/
def demoLike (pat : String) (r : Nat) : Bool :=
  pat == "%cam%" && r % 2 == 0

/-- The store over `demoRows`: 25 rows match the term `cam`. -/
def demoStore : Store Nat := listStore demoRows demoLike

/-- A store whose connection is acquired and whose window query rejects. -/
def windowFailStore : Store Nat := ⟨true, fun _ _ _ => none, fun _ => some 25⟩

/-- A store whose window query resolves and whose count query rejects. -/
def countFailStore : Store Nat := ⟨true, fun _ _ _ => some [0, 2, 4], fun _ => none⟩

/-- A store whose pool hands out no connection. -/
def noConnectionStore : Store Nat := ⟨false, fun _ _ _ => none, fun _ => none⟩

/-! ## Arithmetic of the page metadata -/

theorem setLimit_cast : (setLimit : ℚ) = 10 := by
  simp [setLimit]

/-- The page count `Math.ceil(n / 10)` in natural-number arithmetic. -/
theorem totalPages_eq (n : Nat) : totalPages n = (((n + 9) / 10 : Nat) : Int) := by
  unfold totalPages
  rw [setLimit_cast, Int.ceil_eq_iff]
  generalize hm : (n + 9) / 10 = m
  have h1 : 10 * m ≤ n + 9 := by omega
  have h2 : n ≤ 10 * m := by omega
  have h1q : (10 : ℚ) * (m : ℚ) ≤ (n : ℚ) + 9 := by exact_mod_cast h1
  have h2q : (n : ℚ) ≤ 10 * (m : ℚ) := by exact_mod_cast h2
  rw [Int.cast_natCast]
  constructor
  · rw [lt_div_iff₀ (by norm_num : (0 : ℚ) < 10)]
    linarith
  · rw [div_le_iff₀ (by norm_num : (0 : ℚ) < 10)]
    linarith

theorem totalPages_zero : totalPages 0 = 0 := by
  rw [totalPages_eq]; rfl

/-- The page number is above 1 exactly for a positive offset. -/
theorem page_gt_one_iff (o : Int) : page o > 1 ↔ 0 < o := by
  unfold page
  rw [setLimit_cast]
  constructor
  · intro h
    have h3 : (0 : ℚ) < (o : ℚ) / 10 := by linarith
    have h4 : (0 : ℚ) < (o : ℚ) := by
      by_contra hc
      have h5 : (o : ℚ) ≤ 0 := not_lt.mp hc
      have h6 : (o : ℚ) / 10 ≤ 0 := div_nonpos_of_nonpos_of_nonneg h5 (by norm_num)
      linarith
    exact_mod_cast h4
  · intro h
    have h4 : (0 : ℚ) < (o : ℚ) := by exact_mod_cast h
    have h3 : (0 : ℚ) < (o : ℚ) / 10 := div_pos h4 (by norm_num)
    linarith

theorem prevPage_eq (o : Int) : prevPage o = decide (0 < o) := by
  unfold prevPage
  exact decide_eq_decide.mpr (page_gt_one_iff o)

/-- The page number is below an integer `m` exactly when `o + 10 < 10 * m`. -/
theorem page_lt_iff (o m : Int) : page o < (m : ℚ) ↔ o + 10 < 10 * m := by
  unfold page
  rw [setLimit_cast]
  constructor
  · intro h
    have h1 : (o : ℚ) / 10 < (m : ℚ) - 1 := by linarith
    rw [div_lt_iff₀ (by norm_num : (0 : ℚ) < 10)] at h1
    have h2 : (o : ℚ) + 10 < 10 * (m : ℚ) := by linarith
    exact_mod_cast h2
  · intro h
    have h2 : (o : ℚ) + 10 < 10 * (m : ℚ) := by exact_mod_cast h
    have h1 : (o : ℚ) / 10 < (m : ℚ) - 1 := by
      rw [div_lt_iff₀ (by norm_num : (0 : ℚ) < 10)]
      linarith
    linarith

theorem nextPage_some (o : Int) (n : Nat) :
    nextPage o (some n) = decide (o + 10 < 10 * (((n + 9) / 10 : Nat) : Int)) := by
  unfold nextPage
  simp only
  rw [decide_eq_decide, page_lt_iff, totalPages_eq]

/-- At an offset that is a multiple of 10 the comparison with the page count
is a comparison with the count itself. -/
theorem nextPage_multiple (k : Int) (n : Nat) :
    nextPage (10 * k) (some n) = decide (10 * k + 10 < (n : Int)) := by
  rw [nextPage_some, decide_eq_decide]
  have h1 : 10 * ((n + 9) / 10) ≤ n + 9 := Nat.mul_div_le _ _
  have h2 : n + 9 < 10 * ((n + 9) / 10) + 10 := by omega
  constructor <;> intro h <;> omega

/-! ## Rounding to binary64 -/

/-- Below `2 ^ 53` the binary64 values are one apart. -/
theorem ulp_small (a : Nat) (h : a < 2 ^ 53) : ulp a = 1 := by
  unfold ulp
  cases a with
  | zero => rfl
  | succ m =>
    unfold ulpFrom
    rw [if_pos (by simpa using h)]

/-- From `2 ^ 53` up to `2 ^ 54` the binary64 values are two apart. -/
theorem ulp_second_binade (a : Nat) (h1 : 2 ^ 53 ≤ a) (h2 : a < 2 ^ 54) : ulp a = 2 := by
  unfold ulp
  obtain ⟨m, rfl⟩ : ∃ m, a = m + 2 := ⟨a - 2, by omega⟩
  unfold ulpFrom
  rw [if_neg (by simp only [Nat.div_one]; omega)]
  unfold ulpFrom
  rw [if_pos (by omega)]

/-- A multiple of the spacing is a binary64 value. -/
theorem roundNat_of_dvd (a : Nat) (h : a % ulp a = 0) : roundNat a = a := by
  have hpos : 0 < ulp a ∨ ulp a = 0 := by omega
  unfold roundNat
  simp only [h]
  rcases hpos with hp | hz
  · rw [if_pos (by omega)]
    exact Nat.div_mul_cancel (Nat.dvd_of_mod_eq_zero h)
  · rw [hz] at h
    simp only [Nat.mod_zero] at h
    simp [hz, h]

/-- Every natural number below `2 ^ 53` is a binary64 value. -/
theorem roundNat_small (a : Nat) (h : a < 2 ^ 53) : roundNat a = a := by
  apply roundNat_of_dvd
  rw [ulp_small a h]
  exact Nat.mod_one a

/-- Every even natural number up to `2 ^ 54` is a binary64 value. -/
theorem roundNat_even (a : Nat) (h : a ≤ 2 ^ 54) (heven : a % 2 = 0) : roundNat a = a := by
  by_cases h53 : a < 2 ^ 53
  · exact roundNat_small a h53
  · by_cases h54 : a < 2 ^ 54
    · apply roundNat_of_dvd
      rw [ulp_second_binade a (by omega) h54]
      exact heven
    · have ha : a = 2 ^ 54 := by omega
      subst ha
      decide

/-- Every integer of magnitude below `2 ^ 53` is a binary64 value. -/
theorem roundDouble_small (n : Int) (h1 : -(2 ^ 53) < n) (h2 : n < 2 ^ 53) :
    roundDouble n = n := by
  unfold roundDouble
  rw [roundNat_small n.natAbs (by omega)]
  split <;> omega

/-- Every even integer from 0 to `2 ^ 54` is a binary64 value. -/
theorem roundDouble_even (n : Int) (h0 : 0 ≤ n) (h : n ≤ 2 ^ 54) (heven : 2 ∣ n) :
    roundDouble n = n := by
  unfold roundDouble
  rw [roundNat_even n.natAbs (by omega) (by omega), if_neg (by omega)]
  omega

/-- The test of `numberValue` holds from `2 ^ 1024 - 2 ^ 970` on. -/
theorem numberValue_threshold (v : Nat) :
    2 ^ 54 - 1 ≤ v >>> 970 ↔ 2 ^ 1024 - 2 ^ 970 ≤ v := by
  rw [Nat.shiftRight_eq_div_pow, Nat.le_div_iff_mul_le (Nat.two_pow_pos 970)]
  have h : (2 ^ 54 - 1) * 2 ^ 970 = 2 ^ 1024 - 2 ^ 970 := by
    rw [Nat.sub_mul, ← pow_add, one_mul]
  rw [h]

/-- From `2 ^ 1024 - 2 ^ 970` on the number value is an infinity. -/
theorem numberValue_infinite (negative : Bool) (v : Nat) (h : 2 ^ 1024 - 2 ^ 970 ≤ v) :
    numberValue negative v = Offset.infinite negative := by
  unfold numberValue
  rw [if_pos ((numberValue_threshold v).mpr h)]

/-- The digits 9007199254740993 denote `2 ^ 53 + 1`, which is no binary64
value: `parseInt` gives `2 ^ 53`. -/
theorem offsetParam_rounds :
    offsetParam (some "9007199254740993") = Offset.finite 9007199254740992 := by
  decide

/-! ## The handlers on a store that answers -/

/-- The v2 handler when the connection and both queries succeed. -/
theorem searchV2At_ok {Rec : Type} (store : Store Rec) (q : Option String) (offsetBy : Int)
    (recs : List Rec) (n : Nat) (hconn : store.getConnection = true)
    (hfind : store.find (likePattern q) setLimit offsetBy = some recs)
    (hcount : store.count (likePattern q) = some n) :
    searchV2At store q offsetBy =
      ⟨[Event.acquire, Event.queryOk, Event.queryOk, Event.release],
        Outcome.rendered ViewName.result (some
          ⟨some recs, !recs.isEmpty, some (prevPage offsetBy), some (nextPage offsetBy (some n)),
            q, some (roundDouble (offsetBy - setLimit)),
            some (roundDouble (offsetBy + setLimit))⟩)⟩ := by
  simp [searchV2At, tryV2, renderV2, hconn, hfind, hcount]

/-- The window query of a list store at a non-negative offset. -/
theorem listStore_find {Rec : Type} (rows : List Rec) (like : String → Rec → Bool)
    (pat : String) (limit : Nat) (offset : Int) (h : 0 ≤ offset) :
    (listStore rows like).find pat limit offset =
      some (((matching rows like pat).drop offset.toNat).take limit) := by
  simp [listStore, not_lt.mpr h]

theorem demo_cam : matching demoRows demoLike (likePattern (some "cam")) =
    [0, 2, 4, 6, 8, 10, 12, 14, 16, 18, 20, 22, 24, 26, 28, 30, 32, 34, 36, 38, 40, 42, 44,
      46, 48] := by
  decide

theorem demo_zzz : matching demoRows demoLike (likePattern (some "zzz")) = [] := by
  decide

theorem demo_find (offset : Int) (h : 0 ≤ offset) :
    demoStore.find (likePattern (some "cam")) setLimit offset =
      some (([0, 2, 4, 6, 8, 10, 12, 14, 16, 18, 20, 22, 24, 26, 28, 30, 32, 34, 36, 38, 40,
        42, 44, 46, 48].drop offset.toNat).take 10) := by
  unfold demoStore
  rw [listStore_find _ _ _ _ _ h, demo_cam]
  rfl

theorem demo_count : demoStore.count (likePattern (some "cam")) = some 25 := by
  decide

/-! ## Claims -/

/-- C1: whenever the store returns the window and a count `totalCount` for a
v2 `/search` request at integer offset `offsetBy`, the handler renders the
`result` view with `prevPage = (currentPage > 1)` and
`nextPage = (currentPage < totalPages)`, where `currentPage = offsetBy/10 + 1`
is computed in the rationals and `totalPages = ceil(totalCount/10)`, which the
handler computes as `totalPages totalCount`; `totalPages` is 0 for a count of 0. -/
theorem C1_search_flags {Rec : Type} (store : Store Rec) (q : Option String) (offsetBy : Int)
    (recs : List Rec) (totalCount : Nat) (hconn : store.getConnection = true)
    (hfind : store.find (likePattern q) setLimit offsetBy = some recs)
    (hcount : store.count (likePattern q) = some totalCount) :
    totalPages totalCount = ⌈(totalCount : ℚ) / 10⌉ ∧
    (totalCount = 0 → totalPages totalCount = 0) ∧
    ∃ ctx : Context Rec,
      (searchV2At store q offsetBy).outcome = Outcome.rendered ViewName.result (some ctx) ∧
      ctx.prevPage = some (decide ((offsetBy : ℚ) / 10 + 1 > 1)) ∧
      ctx.nextPage =
        some (decide ((offsetBy : ℚ) / 10 + 1 < ((⌈(totalCount : ℚ) / 10⌉ : Int) : ℚ))) := by
  have htp : totalPages totalCount = ⌈(totalCount : ℚ) / 10⌉ := by
    unfold totalPages
    rw [setLimit_cast]
  refine ⟨htp, ?_, ?_⟩
  · intro h0
    subst h0
    exact totalPages_zero
  · rw [searchV2At_ok store q offsetBy recs totalCount hconn hfind hcount]
    refine ⟨_, rfl, ?_, ?_⟩
    · simp only [prevPage, page, setLimit_cast]
    · simp only [nextPage, page, setLimit_cast, htp]

/-- C1 at the 25 matches of `demoStore`, offset 20. -/
theorem C1_search_flags_witness :
    totalPages 25 = ⌈((25 : Nat) : ℚ) / 10⌉ ∧
    ((25 : Nat) = 0 → totalPages 25 = 0) ∧
    ∃ ctx : Context Nat,
      (searchV2At demoStore (some "cam") 20).outcome =
        Outcome.rendered ViewName.result (some ctx) ∧
      ctx.prevPage = some (decide (((20 : Int) : ℚ) / 10 + 1 > 1)) ∧
      ctx.nextPage =
        some (decide (((20 : Int) : ℚ) / 10 + 1 < ((⌈((25 : Nat) : ℚ) / 10⌉ : Int) : ℚ))) :=
  C1_search_flags demoStore (some "cam") 20 [40, 42, 44, 46, 48] 25 rfl
    (by rw [demo_find 20 (by decide)]; decide) demo_count

/-- The v2 handler on a list store at a non-negative offset: both queries are
answered. -/
theorem searchV2At_listStore {Rec : Type} (rows : List Rec) (like : String → Rec → Bool)
    (q : Option String) (offsetBy : Int) (h0 : 0 ≤ offsetBy) :
    searchV2At (listStore rows like) q offsetBy =
      ⟨[Event.acquire, Event.queryOk, Event.queryOk, Event.release],
        Outcome.rendered ViewName.result (some
          ⟨some (((matching rows like (likePattern q)).drop offsetBy.toNat).take setLimit),
            !(((matching rows like (likePattern q)).drop offsetBy.toNat).take setLimit).isEmpty,
            some (prevPage offsetBy),
            some (nextPage offsetBy (some (matching rows like (likePattern q)).length)),
            q, some (roundDouble (offsetBy - setLimit)),
            some (roundDouble (offsetBy + setLimit))⟩)⟩ :=
  searchV2At_ok (listStore rows like) q offsetBy _ _ rfl
    (listStore_find rows like (likePattern q) setLimit offsetBy h0) rfl

/-- The v2 handler on a list store at a negative offset: the window query is
rejected and reading `recs.length` throws. -/
theorem searchV2At_listStore_negative {Rec : Type} (rows : List Rec)
    (like : String → Rec → Bool) (q : Option String) (offsetBy : Int) (hneg : offsetBy < 0) :
    searchV2At (listStore rows like) q offsetBy =
      ⟨[Event.acquire, Event.queryFail, Event.logError, Event.release],
        Outcome.uncaught JsError.typeError⟩ := by
  simp [searchV2At, tryV2, renderV2, listStore, hneg]

/-- C3, the claim fails: no row of `demoStore` matches `zzz`, the count is 0,
and the v2 handler at offset 10 renders `prevPage = true`; at offset -20 the
store rejects the window query and the handler renders nothing. -/
theorem C3_prev_flag_set_on_empty_count :
    demoStore.count (likePattern (some "zzz")) = some 0 ∧
    searchV2At demoStore (some "zzz") 10 =
      ⟨[Event.acquire, Event.queryOk, Event.queryOk, Event.release],
        Outcome.rendered ViewName.result (some
          ⟨some [], false, some true, some false, some "zzz", some 0, some 20⟩)⟩ ∧
    searchV2At demoStore (some "zzz") (-20) =
      ⟨[Event.acquire, Event.queryFail, Event.logError, Event.release],
        Outcome.uncaught JsError.typeError⟩ := by
  have hc : demoStore.count (likePattern (some "zzz")) = some 0 := by decide
  have hf : demoStore.find (likePattern (some "zzz")) setLimit 10 = some [] := by decide
  have r0 : roundDouble 0 = 0 := by decide
  have r20 : roundDouble 20 = 20 := by decide
  refine ⟨hc, ?_, searchV2At_listStore_negative demoRows demoLike _ _ (by decide)⟩
  rw [searchV2At_ok demoStore (some "zzz") 10 [] 0 rfl hf hc, prevPage_eq, nextPage_some]
  simp [setLimit, r0, r20]

/-- C3 amended: on a store that is an ordered list of rows, for a term whose
count of matching rows is 0 and a non-negative offset, the v2 `/search` handler
computes `totalPages = 0` and renders `nextPage = false` and
`prevPage = (offsetBy > 0)`; both flags are false exactly at offset 0. -/
theorem C3_empty_count_flags {Rec : Type} (rows : List Rec) (like : String → Rec → Bool)
    (q : Option String) (offsetBy : Int)
    (hcount : (listStore rows like).count (likePattern q) = some 0) (h0 : 0 ≤ offsetBy) :
    totalPages 0 = 0 ∧
    ∃ ctx : Context Rec,
      (searchV2At (listStore rows like) q offsetBy).outcome =
        Outcome.rendered ViewName.result (some ctx) ∧
      ctx.prevPage = some (decide (0 < offsetBy)) ∧
      ctx.nextPage = some false ∧
      ((ctx.prevPage = some false ∧ ctx.nextPage = some false) ↔ offsetBy = 0) := by
  refine ⟨totalPages_zero, ?_⟩
  have hlen : (matching rows like (likePattern q)).length = 0 := by
    simpa [listStore] using hcount
  rw [searchV2At_listStore rows like q offsetBy h0, hlen]
  have hn : nextPage offsetBy (some 0) = false := by
    rw [nextPage_some, decide_eq_false_iff_not]
    omega
  refine ⟨_, rfl, ?_, ?_, ?_⟩
  · simp only [prevPage_eq]
  · simp only [hn]
  · simp only [hn, prevPage_eq, Option.some.injEq, decide_eq_false_iff_not, and_true]
    constructor <;> intro h <;> omega

/-- C3 amended, at offsets 0 and 30 of a term without matches. -/
theorem C3_empty_count_flags_witness :
    (totalPages 0 = 0 ∧
      ∃ ctx : Context Nat,
        (searchV2At (listStore demoRows demoLike) (some "zzz") 0).outcome =
          Outcome.rendered ViewName.result (some ctx) ∧
        ctx.prevPage = some (decide ((0 : Int) < 0)) ∧
        ctx.nextPage = some false ∧
        ((ctx.prevPage = some false ∧ ctx.nextPage = some false) ↔ (0 : Int) = 0)) ∧
    (totalPages 0 = 0 ∧
      ∃ ctx : Context Nat,
        (searchV2At (listStore demoRows demoLike) (some "zzz") 30).outcome =
          Outcome.rendered ViewName.result (some ctx) ∧
        ctx.prevPage = some (decide ((0 : Int) < 30)) ∧
        ctx.nextPage = some false ∧
        ((ctx.prevPage = some false ∧ ctx.nextPage = some false) ↔ (30 : Int) = 0)) :=
  ⟨C3_empty_count_flags demoRows demoLike (some "zzz") 0 (by decide) (by decide),
    C3_empty_count_flags demoRows demoLike (some "zzz") 30 (by decide) (by decide)⟩

/-- The flag `nextPage` computed at the offset `(totalPages - 1) * 10` is
false, for every count. -/
theorem nextPage_boundary (totalCount : Nat) :
    nextPage ((totalPages totalCount - 1) * 10) (some totalCount) = false := by
  simp only [nextPage_some, totalPages_eq, decide_eq_false_iff_not]
  omega

/-- The boundary offset `(totalPages - 1) * 10` is non-negative for a count of
at least 1. -/
theorem boundary_nonneg (totalCount : Nat) (h : 1 ≤ totalCount) :
    0 ≤ (totalPages totalCount - 1) * 10 := by
  rw [totalPages_eq]
  omega

/-- C4, the claim fails at `totalCount = 0`: no row of `demoStore` matches
`zzz`, `totalPages` is 0, the boundary offset `(totalPages - 1) * 10` is -10,
the store rejects the window query at that offset and the v2 handler renders
nothing. -/
theorem C4_no_render_at_zero_count :
    demoStore.count (likePattern (some "zzz")) = some 0 ∧
    (totalPages 0 - 1) * 10 = -10 ∧
    searchV2At demoStore (some "zzz") ((totalPages 0 - 1) * 10) =
      ⟨[Event.acquire, Event.queryFail, Event.logError, Event.release],
        Outcome.uncaught JsError.typeError⟩ := by
  have hb : (totalPages 0 - 1) * 10 = -10 := by rw [totalPages_zero]; decide
  refine ⟨by decide, hb, ?_⟩
  rw [hb]
  exact searchV2At_listStore_negative demoRows demoLike _ _ (by decide)

/-- C4 amended: on a store that is an ordered list of rows, with `totalCount`
the count of rows matching the term and `totalPages = ceil(totalCount/10)`, a
v2 `/search` request at offset `(totalPages - 1) * 10` renders
`nextPage = false` whenever `totalCount ≥ 1`, and a request at offset 0 renders
`prevPage = false` for every `totalCount`. -/
theorem C4_boundary_flags {Rec : Type} (rows : List Rec) (like : String → Rec → Bool)
    (q : Option String) (totalCount : Nat)
    (hcount : (listStore rows like).count (likePattern q) = some totalCount) :
    (1 ≤ totalCount →
      ∃ ctx : Context Rec,
        (searchV2At (listStore rows like) q ((totalPages totalCount - 1) * 10)).outcome =
          Outcome.rendered ViewName.result (some ctx) ∧
        ctx.nextPage = some false) ∧
    (∃ ctx : Context Rec,
      (searchV2At (listStore rows like) q 0).outcome =
        Outcome.rendered ViewName.result (some ctx) ∧
      ctx.prevPage = some false) := by
  have hlen : (matching rows like (likePattern q)).length = totalCount := by
    simpa [listStore] using hcount
  constructor
  · intro h1
    rw [searchV2At_listStore rows like q _ (boundary_nonneg totalCount h1), hlen]
    exact ⟨_, rfl, by simp only [nextPage_boundary]⟩
  · rw [searchV2At_listStore rows like q 0 (le_refl 0)]
    exact ⟨_, rfl, by simp [prevPage_eq]⟩

/-- C4 amended at the 25 matches of `demoStore`: the last page starts at
offset 20. -/
theorem C4_boundary_flags_witness :
    (1 ≤ 25) ∧
    (∃ ctx : Context Nat,
      (searchV2At (listStore demoRows demoLike) (some "cam") 20).outcome =
        Outcome.rendered ViewName.result (some ctx) ∧
      ctx.nextPage = some false) ∧
    (∃ ctx : Context Nat,
      (searchV2At (listStore demoRows demoLike) (some "cam") 0).outcome =
        Outcome.rendered ViewName.result (some ctx) ∧
      ctx.prevPage = some false) := by
  have h := C4_boundary_flags demoRows demoLike (some "cam") 25 demo_count
  have h20 : (totalPages 25 - 1) * 10 = 20 := by rw [totalPages_eq]; decide
  rw [h20] at h
  exact ⟨by decide, h.1 (by decide), h.2⟩

/-- C5, the claim fails: 18014398509482000 is a binary64 value and a
non-negative multiple of 10; a v2 `/search` request with that `offset` is
answered with an empty window, `prevPage` is rendered true, and the rendered
`prevOffset` is 18014398509481992, the binary64 value nearest to the offset
minus 10: it is not the offset minus 10 and no multiple of 10. -/
theorem C5_prev_offset_rounded :
    (0 : Int) ≤ 18014398509482000 ∧ (10 : Int) ∣ 18014398509482000 ∧
    offsetParam (some "18014398509482000") = Offset.finite 18014398509482000 ∧
    searchV2 demoStore ⟨some "cam", some "18014398509482000"⟩ =
      ⟨[Event.acquire, Event.queryOk, Event.queryOk, Event.release],
        Outcome.rendered ViewName.result (some
          ⟨some [], false, some true, some false, some "cam",
            some 18014398509481992, some 18014398509482008⟩)⟩ ∧
    (18014398509481992 : Int) ≠ 18014398509482000 - 10 ∧
    ¬ (10 : Int) ∣ 18014398509481992 := by
  have hoff : offsetParam (some "18014398509482000") = Offset.finite 18014398509482000 := by
    decide
  have hprev : roundDouble 18014398509481990 = 18014398509481992 := by decide
  have hnext : roundDouble 18014398509482010 = 18014398509482008 := by decide
  refine ⟨by decide, by decide, hoff, ?_, by decide, by decide⟩
  unfold searchV2
  simp only [hoff]
  rw [searchV2At_ok demoStore (some "cam") 18014398509482000 _ 25 rfl
    (demo_find 18014398509482000 (by decide)) demo_count, prevPage_eq, nextPage_some]
  simp [setLimit, hprev, hnext]

/-- C5 amended: for a v2 `/search` request at an offset that is a non-negative
multiple of 10 with `offsetBy + 10 ≤ 2 ^ 54` and that the store answers
(whatever the count, and also when the count query fails), the handler renders
`nextOffset = offsetBy + 10` and `prevOffset = offsetBy - 10`; the first is a
non-negative multiple of 10, and so is the second whenever `prevPage` is
rendered true. -/
theorem C5_navigation_offsets {Rec : Type} (store : Store Rec) (q : Option String)
    (offsetBy : Int) (recs : List Rec) (h0 : 0 ≤ offsetBy) (h10 : 10 ∣ offsetBy)
    (hsafe : offsetBy + 10 ≤ 2 ^ 54) (hconn : store.getConnection = true)
    (hfind : store.find (likePattern q) setLimit offsetBy = some recs) :
    ∃ ctx : Context Rec,
      (searchV2At store q offsetBy).outcome = Outcome.rendered ViewName.result (some ctx) ∧
      (ctx.nextPage = some true →
        ctx.nextOffset = some (offsetBy + 10) ∧ 0 ≤ offsetBy + 10 ∧ 10 ∣ offsetBy + 10) ∧
      (ctx.prevPage = some true →
        ctx.prevOffset = some (offsetBy - 10) ∧ 0 ≤ offsetBy - 10 ∧ 10 ∣ offsetBy - 10) := by
  have hout : (searchV2At store q offsetBy).outcome =
      Outcome.rendered ViewName.result (some
        ⟨some recs, !recs.isEmpty, some (prevPage offsetBy),
          some (nextPage offsetBy (store.count (likePattern q))),
          q, some (roundDouble (offsetBy - setLimit)),
          some (roundDouble (offsetBy + setLimit))⟩) := by
    cases hc : store.count (likePattern q) <;>
      simp [searchV2At, tryV2, renderV2, hconn, hfind, hc]
  obtain ⟨k, hk⟩ := h10
  have hnext : roundDouble (offsetBy + setLimit) = offsetBy + 10 := by
    simp only [setLimit, Nat.cast_ofNat]
    exact roundDouble_even _ (by omega) hsafe ⟨5 * k + 5, by omega⟩
  rw [hout]
  refine ⟨_, rfl, ?_, ?_⟩
  · intro _
    exact ⟨by simp only [hnext], by omega, ⟨k + 1, by omega⟩⟩
  · intro hp
    simp only [prevPage_eq, Option.some.injEq, decide_eq_true_eq] at hp
    have hprev : roundDouble (offsetBy - setLimit) = offsetBy - 10 := by
      simp only [setLimit, Nat.cast_ofNat]
      exact roundDouble_even _ (by omega) (by omega) ⟨5 * k - 5, by omega⟩
    exact ⟨by simp only [hprev], by omega, ⟨k - 1, by omega⟩⟩

/-- C5 amended at offset 10 of the 25 matches of `demoStore`, where both links
are offered. -/
theorem C5_navigation_offsets_witness :
    (0 : Int) ≤ 10 ∧ (10 : Int) ∣ 10 ∧ (10 : Int) + 10 ≤ 2 ^ 54 ∧
    ∃ ctx : Context Nat,
      (searchV2At demoStore (some "cam") 10).outcome =
        Outcome.rendered ViewName.result (some ctx) ∧
      (ctx.nextPage = some true →
        ctx.nextOffset = some ((10 : Int) + 10) ∧ 0 ≤ (10 : Int) + 10 ∧ 10 ∣ (10 : Int) + 10) ∧
      (ctx.prevPage = some true →
        ctx.prevOffset = some ((10 : Int) - 10) ∧ 0 ≤ (10 : Int) - 10 ∧ 10 ∣ (10 : Int) - 10) :=
  ⟨by decide, by decide, by decide,
    C5_navigation_offsets demoStore (some "cam") 10 _ (by decide) (by decide) (by decide) rfl
      (demo_find 10 (by decide))⟩

/-- At offset 10 of the 25 matches both flags are rendered true. -/
theorem demo_both_links :
    searchV2At demoStore (some "cam") 10 =
      ⟨[Event.acquire, Event.queryOk, Event.queryOk, Event.release],
        Outcome.rendered ViewName.result (some
          ⟨some [20, 22, 24, 26, 28, 30, 32, 34, 36, 38], true, some true, some true,
            some "cam", some 0, some 20⟩)⟩ := by
  have r0 : roundDouble 0 = 0 := by decide
  have r20 : roundDouble 20 = 20 := by decide
  rw [searchV2At_ok demoStore (some "cam") 10 _ 25 rfl (demo_find 10 (by decide)) demo_count,
    prevPage_eq, nextPage_some]
  simp [setLimit, r0, r20]

/-- The v1 `/search` handler on a list store, at a non-negative shared offset. -/
theorem searchV1_listStore {Rec : Type} (rows : List Rec) (like : String → Rec → Bool)
    (st : StateV1) (term : Option String) (h0 : 0 ≤ st.offsetBy) :
    (searchV1 (listStore rows like) st term).2 =
      if (((matching rows like (likePattern term)).drop st.offsetBy.toNat).take
        setLimit).isEmpty
      then
        ⟨[Event.acquire, Event.queryOk, Event.release],
          Outcome.rendered ViewName.result (some ⟨none, false, none, none, none, none, none⟩)⟩
      else
        ⟨[Event.acquire, Event.queryOk, Event.queryOk, Event.release],
          Outcome.rendered ViewName.result (some
            ⟨some (((matching rows like (likePattern term)).drop st.offsetBy.toNat).take
                setLimit),
              true, some (prevPage st.offsetBy),
              some (nextPage st.offsetBy (some (matching rows like (likePattern term)).length)),
              none, none, none⟩)⟩ := by
  have hfind := listStore_find rows like (likePattern term) setLimit st.offsetBy h0
  unfold searchV1 tryV1
  simp only [hfind]
  cases hw : (((matching rows like (likePattern term)).drop st.offsetBy.toNat).take
      setLimit).isEmpty
  · simp [listStore]
  · simp [listStore]

/-- C2: on a store that is an ordered list of rows, at an offset that is a
non-negative multiple of 10, the window `w` of the matching rows `m` has at
most 10 rows, namely `w[i] = m[offset + i]` for `i < 10`, which are
`min(10, max(0, totalCount - offset))` rows; the v2 `/search` handler renders
`recs = w`, and the v1 `/search` handler with the shared `offsetBy` at that
offset renders `recs = w` when `w` is not empty and no `recs` when it is. -/
theorem C2_window {Rec : Type} (rows : List Rec) (like : String → Rec → Bool)
    (term : Option String) (st : StateV1) (h0 : 0 ≤ st.offsetBy) (h10 : 10 ∣ st.offsetBy) :
    ∃ w : List Rec,
      (listStore rows like).find (likePattern term) setLimit st.offsetBy = some w ∧
      w.length ≤ 10 ∧
      (∀ i : Nat, i < 10 →
        w[i]? = (matching rows like (likePattern term))[st.offsetBy.toNat + i]?) ∧
      (w.length : Int) =
        min 10 (max 0 (((matching rows like (likePattern term)).length : Int) - st.offsetBy)) ∧
      (∃ ctx : Context Rec,
        (searchV2At (listStore rows like) term st.offsetBy).outcome =
          Outcome.rendered ViewName.result (some ctx) ∧
        ctx.recs = some w) ∧
      (∃ ctx : Context Rec,
        (searchV1 (listStore rows like) st term).2.outcome =
          Outcome.rendered ViewName.result (some ctx) ∧
        ctx.recs = (if w.isEmpty then none else some w) ∧ ctx.recs.getD [] = w) := by
  have hfind := listStore_find rows like (likePattern term) setLimit st.offsetBy h0
  refine ⟨_, hfind, ?_, ?_, ?_, ?_, ?_⟩
  · simp only [List.length_take, setLimit]
    omega
  · intro i hi
    rw [List.getElem?_take, if_pos (by simpa [setLimit] using hi), List.getElem?_drop]
  · simp only [List.length_take, List.length_drop, setLimit]
    omega
  · rw [searchV2At_ok (listStore rows like) term st.offsetBy _ _ rfl hfind rfl]
    exact ⟨_, rfl, rfl⟩
  · rw [searchV1_listStore rows like st term h0]
    cases hw : (((matching rows like (likePattern term)).drop st.offsetBy.toNat).take
        setLimit).isEmpty
    · exact ⟨_, rfl, by simp, by simp⟩
    · rw [List.isEmpty_iff] at hw
      exact ⟨_, rfl, by simp, by simp [hw]⟩

/-- C2 on the 25 matches of `demoStore`: offset 0 gives 10 records, 3 pages,
no previous and a next page; offset 20 gives 5 records, a previous and no next
page. -/
theorem C2_window_witness :
    ((0 : Int) ≤ 20 ∧ (10 : Int) ∣ 20) ∧
    (∃ w : List Nat,
      demoStore.find (likePattern (some "cam")) setLimit 20 = some w ∧
      w.length ≤ 10 ∧
      (∀ i : Nat, i < 10 →
        w[i]? = (matching demoRows demoLike (likePattern (some "cam")))[(20 : Int).toNat + i]?) ∧
      (w.length : Int) =
        min 10 (max 0
          (((matching demoRows demoLike (likePattern (some "cam"))).length : Int) - 20)) ∧
      (∃ ctx : Context Nat,
        (searchV2At demoStore (some "cam") 20).outcome =
          Outcome.rendered ViewName.result (some ctx) ∧
        ctx.recs = some w) ∧
      (∃ ctx : Context Nat,
        (searchV1 demoStore ⟨some "", 20, 1⟩ (some "cam")).2.outcome =
          Outcome.rendered ViewName.result (some ctx) ∧
        ctx.recs = (if w.isEmpty then none else some w) ∧ ctx.recs.getD [] = w)) ∧
    totalPages 25 = 3 ∧
    searchV2At demoStore (some "cam") 0 =
      ⟨[Event.acquire, Event.queryOk, Event.queryOk, Event.release],
        Outcome.rendered ViewName.result (some
          ⟨some [0, 2, 4, 6, 8, 10, 12, 14, 16, 18], true, some false, some true,
            some "cam", some (-10), some 10⟩)⟩ ∧
    searchV2At demoStore (some "cam") 20 =
      ⟨[Event.acquire, Event.queryOk, Event.queryOk, Event.release],
        Outcome.rendered ViewName.result (some
          ⟨some [40, 42, 44, 46, 48], true, some true, some false,
            some "cam", some 10, some 30⟩)⟩ := by
  refine ⟨⟨by decide, by decide⟩,
    C2_window demoRows demoLike (some "cam") ⟨some "", 20, 1⟩ (by decide) (by decide), ?_, ?_, ?_⟩
  · rw [totalPages_eq]; decide
  · have r1 : roundDouble (-10) = -10 := by decide
    have r2 : roundDouble 10 = 10 := by decide
    rw [searchV2At_ok demoStore (some "cam") 0 _ 25 rfl (demo_find 0 (by decide)) demo_count,
      prevPage_eq, nextPage_some]
    simp [setLimit, r1, r2]
  · have r1 : roundDouble 10 = 10 := by decide
    have r2 : roundDouble 30 = 30 := by decide
    rw [searchV2At_ok demoStore (some "cam") 20 _ 25 rfl (demo_find 20 (by decide)) demo_count,
      prevPage_eq, nextPage_some]
    simp [setLimit, r1, r2]

/-- C9: on a list store, for a v2 `/search` request at an offset that is a
non-negative multiple of 10, with `totalCount` the number of matching rows, the
handler renders `nextPage = true` exactly when `offset + 10 < totalCount`, which
is exactly when the window at `offset + 10` is not empty, and `prevPage = true`
exactly when `offset > 0`. -/
theorem C9_next_iff_more {Rec : Type} (rows : List Rec) (like : String → Rec → Bool)
    (q : Option String) (offsetBy : Int) (h0 : 0 ≤ offsetBy) (h10 : 10 ∣ offsetBy) :
    ∃ ctx : Context Rec,
      (searchV2At (listStore rows like) q offsetBy).outcome =
        Outcome.rendered ViewName.result (some ctx) ∧
      (ctx.nextPage = some true ↔
        offsetBy + 10 < ((matching rows like (likePattern q)).length : Int)) ∧
      (ctx.nextPage = some true ↔
        ∃ w : List Rec,
          (listStore rows like).find (likePattern q) setLimit (offsetBy + 10) = some w ∧
          w ≠ []) ∧
      (ctx.nextPage = some true ∨ ctx.nextPage = some false) ∧
      (ctx.prevPage = some true ↔ 0 < offsetBy) ∧
      (ctx.prevPage = some true ∨ ctx.prevPage = some false) := by
  have hfind := listStore_find rows like (likePattern q) setLimit offsetBy h0
  have hnext : nextPage offsetBy (some (matching rows like (likePattern q)).length) = true ↔
      offsetBy + 10 < ((matching rows like (likePattern q)).length : Int) := by
    obtain ⟨k, hk⟩ := h10
    subst hk
    rw [nextPage_multiple, decide_eq_true_eq]
  rw [searchV2At_ok (listStore rows like) q offsetBy _ _ rfl hfind rfl]
  refine ⟨_, rfl, ?_, ?_, ?_, ?_, ?_⟩
  · simp only [Option.some.injEq]
    exact hnext
  · simp only [Option.some.injEq]
    rw [hnext, listStore_find rows like (likePattern q) setLimit (offsetBy + 10) (by omega)]
    constructor
    · intro h
      refine ⟨_, rfl, ?_⟩
      intro hw
      have hlen := congrArg List.length hw
      simp only [List.length_take, List.length_drop, List.length_nil, setLimit] at hlen
      omega
    · rintro ⟨w, hw, hne⟩
      simp only [Option.some.injEq] at hw
      subst hw
      by_contra hc
      apply hne
      apply List.eq_nil_of_length_eq_zero
      simp only [List.length_take, List.length_drop, setLimit]
      omega
  · cases nextPage offsetBy (some (matching rows like (likePattern q)).length) <;> simp
  · simp only [Option.some.injEq, prevPage_eq, decide_eq_true_eq]
  · cases prevPage offsetBy <;> simp

/-- C9 at offsets 10 and 20 of the 25 matches of `demoStore`. -/
theorem C9_next_iff_more_witness :
    ((0 : Int) ≤ 10 ∧ (10 : Int) ∣ 10) ∧
    ∃ ctx : Context Nat,
      (searchV2At (listStore demoRows demoLike) (some "cam") 10).outcome =
        Outcome.rendered ViewName.result (some ctx) ∧
      (ctx.nextPage = some true ↔
        (10 : Int) + 10 < ((matching demoRows demoLike (likePattern (some "cam"))).length : Int)) ∧
      (ctx.nextPage = some true ↔
        ∃ w : List Nat,
          (listStore demoRows demoLike).find (likePattern (some "cam")) setLimit (10 + 10) =
            some w ∧
          w ≠ []) ∧
      (ctx.nextPage = some true ∨ ctx.nextPage = some false) ∧
      (ctx.prevPage = some true ↔ (0 : Int) < 10) ∧
      (ctx.prevPage = some true ∨ ctx.prevPage = some false) :=
  ⟨⟨by decide, by decide⟩,
    C9_next_iff_more demoRows demoLike (some "cam") 10 (by decide) (by decide)⟩

/-- C10: on a list store, with the shared `offsetBy` of v1 equal to the offset
of the v2 request and the same term, a non-empty window `w` makes the v1 and
the v2 `/search` handlers render the same `recs = w`, `hasContent = true` and
the same `prevPage` and `nextPage`; an empty window makes v1 run the window
query only and render `hasContent = false` and no other key. -/
theorem C10_v1_v2_agree {Rec : Type} (rows : List Rec) (like : String → Rec → Bool)
    (term : Option String) (st : StateV1) (w : List Rec)
    (hfind : (listStore rows like).find (likePattern term) setLimit st.offsetBy = some w) :
    (w ≠ [] →
      ∃ c1 c2 : Context Rec,
        (searchV1 (listStore rows like) st term).2.outcome =
          Outcome.rendered ViewName.result (some c1) ∧
        (searchV2At (listStore rows like) term st.offsetBy).outcome =
          Outcome.rendered ViewName.result (some c2) ∧
        c1.recs = some w ∧ c2.recs = some w ∧
        c1.hasContent = true ∧ c2.hasContent = true ∧
        c1.prevPage = c2.prevPage ∧ c1.nextPage = c2.nextPage ∧
        (∃ b : Bool, c1.prevPage = some b) ∧ (∃ b : Bool, c1.nextPage = some b)) ∧
    (w = [] →
      (searchV1 (listStore rows like) st term).2 =
        ⟨[Event.acquire, Event.queryOk, Event.release],
          Outcome.rendered ViewName.result
            (some ⟨none, false, none, none, none, none, none⟩)⟩) := by
  have hv2 := searchV2At_ok (listStore rows like) term st.offsetBy w
    (matching rows like (likePattern term)).length rfl hfind rfl
  constructor
  · intro hne
    have hemp : w.isEmpty = false := by
      cases w with
      | nil => exact absurd rfl hne
      | cons a l => rfl
    have hv1 : (searchV1 (listStore rows like) st term).2 =
        ⟨[Event.acquire, Event.queryOk, Event.queryOk, Event.release],
          Outcome.rendered ViewName.result (some
            ⟨some w, true, some (prevPage st.offsetBy),
              some (nextPage st.offsetBy (some (matching rows like (likePattern term)).length)),
              none, none, none⟩)⟩ := by
      unfold searchV1 tryV1
      simp only [hfind]
      simp [listStore, hemp]
    rw [hv1, hv2]
    exact ⟨_, _, rfl, rfl, rfl, rfl, rfl, by simp [hemp], rfl, rfl, ⟨_, rfl⟩, ⟨_, rfl⟩⟩
  · intro hnil
    subst hnil
    unfold searchV1 tryV1
    simp only [hfind]
    simp [listStore]

/-- C10 on `demoStore`: the window at offset 20 holds five rows and both
handlers render them; the window at offset 30 is empty, v1 runs one query and
renders `hasContent = false` only. -/
theorem C10_v1_v2_agree_witness :
    (∃ c1 c2 : Context Nat,
      (searchV1 (listStore demoRows demoLike) ⟨some "", 20, 1⟩ (some "cam")).2.outcome =
        Outcome.rendered ViewName.result (some c1) ∧
      (searchV2At (listStore demoRows demoLike) (some "cam") 20).outcome =
        Outcome.rendered ViewName.result (some c2) ∧
      c1.recs = some [40, 42, 44, 46, 48] ∧ c2.recs = some [40, 42, 44, 46, 48] ∧
      c1.hasContent = true ∧ c2.hasContent = true ∧
      c1.prevPage = c2.prevPage ∧ c1.nextPage = c2.nextPage ∧
      (∃ b : Bool, c1.prevPage = some b) ∧ (∃ b : Bool, c1.nextPage = some b)) ∧
    (searchV1 (listStore demoRows demoLike) ⟨some "", 30, 1⟩ (some "cam")).2 =
      ⟨[Event.acquire, Event.queryOk, Event.release],
        Outcome.rendered ViewName.result
          (some ⟨none, false, none, none, none, none, none⟩)⟩ :=
  ⟨(C10_v1_v2_agree demoRows demoLike (some "cam") ⟨some "", 20, 1⟩ [40, 42, 44, 46, 48]
      (demo_find 20 (by decide))).1 (by decide),
    (C10_v1_v2_agree demoRows demoLike (some "cam") ⟨some "", 30, 1⟩ []
      (demo_find 30 (by decide))).2 rfl⟩

/-- The traces of the `try` statement of the v1 handlers. -/
theorem tryV1_trace {Rec : Type} (store : Store Rec) (st : StateV1) :
    (tryV1 store st).2.trace ∈
      [[Event.acquire, Event.queryFail, Event.logError, Event.release],
        [Event.acquire, Event.queryOk, Event.queryFail, Event.logError, Event.release],
        [Event.acquire, Event.queryOk, Event.queryOk, Event.release],
        [Event.acquire, Event.queryOk, Event.release]] := by
  unfold tryV1
  split
  · simp
  · split
    · split <;> simp
    · simp

/-- The traces of the v2 `/search` handler. -/
theorem searchV2At_trace {Rec : Type} (store : Store Rec) (q : Option String)
    (offsetBy : Int) :
    (searchV2At store q offsetBy).trace ∈
      [[Event.acquire, Event.queryFail, Event.logError, Event.release],
        [Event.acquire, Event.queryOk, Event.queryFail, Event.logError, Event.release],
        [Event.acquire, Event.queryOk, Event.queryOk, Event.release],
        [Event.acquireFail, Event.logError]] := by
  unfold searchV2At tryV2
  cases store.getConnection <;> cases store.find (likePattern q) setLimit offsetBy <;>
    cases store.count (likePattern q) <;> simp

/-- The traces of a v1 handler that asks for the connection before its `try`
statement. -/
theorem guardedV1_trace {Rec : Type} (store : Store Rec) (st st0 : StateV1) :
    (if store.getConnection then tryV1 store st
      else (st0, (⟨[Event.acquireFail], Outcome.uncaught JsError.storeError⟩ :
        Handled Rec))).2.trace ∈
      [[Event.acquire, Event.queryFail, Event.logError, Event.release],
        [Event.acquire, Event.queryOk, Event.queryFail, Event.logError, Event.release],
        [Event.acquire, Event.queryOk, Event.queryOk, Event.release],
        [Event.acquire, Event.queryOk, Event.release],
        [Event.acquireFail]] := by
  cases store.getConnection
  · simp
  · have h := tryV1_trace store st
    simp only [List.mem_cons, List.mem_singleton, List.not_mem_nil, or_false] at h
    simp only [if_true, List.mem_cons, List.mem_singleton, List.not_mem_nil, or_false]
    tauto

/-- Every trace of the handlers that holds an `acquire` holds one `acquire`,
one `release`, and ends with the `release`. -/
theorem released_once (t : List Event)
    (ht : t ∈
      [[Event.acquire, Event.queryFail, Event.logError, Event.release],
        [Event.acquire, Event.queryOk, Event.queryFail, Event.logError, Event.release],
        [Event.acquire, Event.queryOk, Event.queryOk, Event.release],
        [Event.acquire, Event.queryOk, Event.release],
        [Event.acquireFail], [Event.acquireFail, Event.logError]])
    (hacq : Event.acquire ∈ t) :
    t.count Event.release = 1 ∧ t.count Event.acquire = 1 ∧
    t.getLast? = some Event.release ∧ t.head? = some Event.acquire := by
  simp only [List.mem_cons, List.mem_singleton, List.not_mem_nil, or_false] at ht
  rcases ht with h | h | h | h | h | h <;> subst h <;> revert hacq <;> decide

/-- C7: in the v2 `/search` handler and in the v1 `/search`, `/next` and `/prev`
handlers, whatever the store does to the connection, the window query and the
count query, a trace in which the connection is acquired holds exactly one
`acquire` and exactly one `release`, and the `release` is its last event. -/
theorem C7_release_once {Rec : Type} (store : Store Rec) (q : Option String) (offsetBy : Int)
    (st : StateV1) (term : Option String) (h : Handled Rec)
    (hh : h = searchV2At store q offsetBy ∨ h = (searchV1 store st term).2 ∨
      h = (nextV1 store st).2 ∨ h = (prevV1 store st).2)
    (hacq : Event.acquire ∈ h.trace) :
    h.trace.count Event.release = 1 ∧ h.trace.count Event.acquire = 1 ∧
    h.trace.getLast? = some Event.release ∧ h.trace.head? = some Event.acquire := by
  apply released_once _ _ hacq
  rcases hh with hh | hh | hh | hh
  · subst hh
    have h := searchV2At_trace store q offsetBy
    simp only [List.mem_cons, List.mem_singleton, List.not_mem_nil, or_false] at h ⊢
    tauto
  · subst hh
    have h := guardedV1_trace store ⟨term, st.offsetBy, st.page⟩ ⟨term, st.offsetBy, st.page⟩
    simp only [List.mem_cons, List.mem_singleton, List.not_mem_nil, or_false] at h ⊢
    unfold searchV1
    tauto
  · subst hh
    have h := guardedV1_trace store ⟨st.q, roundDouble (st.offsetBy + setLimit), st.page⟩ st
    simp only [List.mem_cons, List.mem_singleton, List.not_mem_nil, or_false] at h ⊢
    unfold nextV1
    tauto
  · subst hh
    have h := guardedV1_trace store ⟨st.q, roundDouble (st.offsetBy - setLimit), st.page⟩ st
    simp only [List.mem_cons, List.mem_singleton, List.not_mem_nil, or_false] at h ⊢
    unfold prevV1
    tauto

/-- C7 on three stores: the window query fails (v2 `/search`), the count query
fails (v1 `/next`), both queries succeed (v1 `/search`, `/prev`). -/
theorem C7_release_once_witness :
    (Event.acquire ∈ (searchV2At windowFailStore (some "cam") 0).trace ∧
      (searchV2At windowFailStore (some "cam") 0).trace.count Event.release = 1) ∧
    (Event.acquire ∈ (nextV1 countFailStore initV1).2.trace ∧
      (nextV1 countFailStore initV1).2.trace.count Event.release = 1) ∧
    (Event.acquire ∈ (searchV1 demoStore initV1 (some "cam")).2.trace ∧
      (searchV1 demoStore initV1 (some "cam")).2.trace.count Event.release = 1) ∧
    (Event.acquire ∈ (prevV1 demoStore ⟨some "cam", 10, 2⟩).2.trace ∧
      (prevV1 demoStore ⟨some "cam", 10, 2⟩).2.trace.count Event.release = 1) :=
  ⟨⟨by decide,
      (C7_release_once windowFailStore (some "cam") 0 initV1 none _ (Or.inl rfl)
        (by decide)).1⟩,
    ⟨by decide,
      (C7_release_once countFailStore none 0 initV1 none _ (Or.inr (Or.inr (Or.inl rfl)))
        (by decide)).1⟩,
    ⟨by decide,
      (C7_release_once demoStore none 0 initV1 (some "cam") _ (Or.inr (Or.inl rfl))
        (by decide)).1⟩,
    ⟨by decide,
      (C7_release_once demoStore none 0 ⟨some "cam", 10, 2⟩ none _
        (Or.inr (Or.inr (Or.inr rfl))) (by decide)).1⟩⟩

/-! ## The offset of a `/search` request -/

/-- The `try` statement of v1 leaves `q` and `offsetBy` as they are. -/
theorem tryV1_state {Rec : Type} (store : Store Rec) (st : StateV1) :
    (tryV1 store st).1.q = st.q ∧ (tryV1 store st).1.offsetBy = st.offsetBy := by
  unfold tryV1
  split
  · simp
  · split
    · split <;> simp
    · simp

/-- The v1 `/search` handler stores the term and keeps the shared `offsetBy`. -/
theorem searchV1_state {Rec : Type} (store : Store Rec) (st : StateV1) (term : Option String) :
    (searchV1 store st term).1.q = term ∧ (searchV1 store st term).1.offsetBy = st.offsetBy := by
  unfold searchV1
  cases store.getConnection
  · simp
  · simpa using tryV1_state store ⟨term, st.offsetBy, st.page⟩

/-- The v1 `/next` handler adds 10 to the shared `offsetBy` once it has a
connection. -/
theorem nextV1_state {Rec : Type} (store : Store Rec) (st : StateV1)
    (hconn : store.getConnection = true) :
    (nextV1 store st).1.q = st.q ∧
    (nextV1 store st).1.offsetBy = roundDouble (st.offsetBy + 10) := by
  unfold nextV1
  rw [if_pos hconn]
  simpa [setLimit] using
    tryV1_state store ⟨st.q, roundDouble (st.offsetBy + setLimit), st.page⟩

/-- An absent `offset` parameter of v2 is offset 0. -/
theorem offsetParam_absent : offsetParam none = Offset.finite 0 := by
  decide

/-- An `offset` parameter of v2 that `parseInt` turns into `NaN` is offset 0. -/
theorem offsetParam_nan (param : Option String) (h : parseInt param = none) :
    offsetParam param = Offset.finite 0 := by
  simp [offsetParam, h]

/-- A v2 `/search` request without `offset` is handled at offset 0. -/
theorem searchV2_no_offset {Rec : Type} (store : Store Rec) (q : Option String) :
    searchV2 store ⟨q, none⟩ = searchV2At store q 0 := by
  unfold searchV2
  simp only [offsetParam_absent]

/-- After `GET /` the v1 `/search` handler runs at offset 0. -/
theorem searchV1_after_index {Rec : Type} (store : Store Rec) (st : StateV1)
    (term : Option String) :
    (indexV1 st : StateV1 × Handled Rec).1.offsetBy = 0 ∧
    (searchV1 store (indexV1 st : StateV1 × Handled Rec).1 term).1.offsetBy = 0 := by
  refine ⟨rfl, ?_⟩
  rw [(searchV1_state store _ term).2]
  rfl

/-- C6, the v1 handler at the failing input `GET /search?search=cam`,
`GET /next`, `GET /search?search=cam`: the first two requests leave the shared
`offsetBy` at 10, and the third, a new search, is paginated from row 10 of the
matches, not from row 0, with `prevPage = true`. -/
theorem C6_v1_search_keeps_offset :
    (runV1 demoStore initV1 [RequestV1.search (some "cam"), RequestV1.next]).offsetBy = 10 ∧
    (searchV1 demoStore
        (runV1 demoStore initV1 [RequestV1.search (some "cam"), RequestV1.next])
        (some "cam")).2 =
      ⟨[Event.acquire, Event.queryOk, Event.queryOk, Event.release],
        Outcome.rendered ViewName.result (some
          ⟨some [20, 22, 24, 26, 28, 30, 32, 34, 36, 38], true, some true, some true,
            none, none, none⟩)⟩ := by
  have hoff :
      (runV1 demoStore initV1 [RequestV1.search (some "cam"), RequestV1.next]).offsetBy = 10 := by
    simp only [runV1, stepV1]
    rw [(nextV1_state demoStore _ rfl).2, (searchV1_state demoStore _ _).2]
    decide
  refine ⟨hoff, ?_⟩
  unfold demoStore
  rw [searchV1_listStore demoRows demoLike _ (some "cam") (by rw [← demoStore, hoff]; decide)]
  rw [← demoStore, hoff, demo_cam, prevPage_eq, nextPage_some]
  simp [setLimit]

/-- C8, the handlers at failing inputs.  v2: with `offset=-10` the window query
is rejected, the error is caught and logged, and `recs.length` then throws a
`TypeError` that nothing catches; the same for any rejected window query; a
rejected count query ends in the `result` view; a rejected `getConnection`
makes `conn.release()` throw in `finally`.  v1: a rejected `getConnection` is
outside the `try`, and a rejected query ends without any response. -/
theorem C8_search_failures :
    searchV2 demoStore ⟨some "cam", some "-10"⟩ =
      ⟨[Event.acquire, Event.queryFail, Event.logError, Event.release],
        Outcome.uncaught JsError.typeError⟩ ∧
    searchV2At windowFailStore (some "cam") 0 =
      ⟨[Event.acquire, Event.queryFail, Event.logError, Event.release],
        Outcome.uncaught JsError.typeError⟩ ∧
    searchV2At countFailStore (some "cam") 0 =
      ⟨[Event.acquire, Event.queryOk, Event.queryFail, Event.logError, Event.release],
        Outcome.rendered ViewName.result (some
          ⟨some [0, 2, 4], true, some false, some false, some "cam", some (-10), some 10⟩)⟩ ∧
    searchV2At noConnectionStore (some "cam") 0 =
      ⟨[Event.acquireFail, Event.logError], Outcome.uncaught JsError.typeError⟩ ∧
    (searchV1 noConnectionStore initV1 (some "cam")).2 =
      ⟨[Event.acquireFail], Outcome.uncaught JsError.storeError⟩ ∧
    (searchV1 windowFailStore initV1 (some "cam")).2 =
      ⟨[Event.acquire, Event.queryFail, Event.logError, Event.release], Outcome.noResponse⟩ ∧
    (searchV1 countFailStore initV1 (some "cam")).2 =
      ⟨[Event.acquire, Event.queryOk, Event.queryFail, Event.logError, Event.release],
        Outcome.noResponse⟩ := by
  have hoff : offsetParam (some "-10") = Offset.finite (-10) := by decide
  have r1 : roundDouble (-10) = -10 := by decide
  have r2 : roundDouble 10 = 10 := by decide
  refine ⟨?_, ?_, ?_, ?_, ?_, ?_, ?_⟩
  · unfold searchV2
    simp only [hoff]
    simp [searchV2At, tryV2, renderV2, demoStore, listStore]
  · simp [searchV2At, tryV2, renderV2, windowFailStore]
  · simp [searchV2At, tryV2, renderV2, countFailStore, prevPage_eq, nextPage, setLimit, r1, r2]
  · simp [searchV2At, tryV2, noConnectionStore]
  · simp [searchV1, noConnectionStore]
  · simp [searchV1, tryV1, windowFailStore]
  · simp [searchV1, tryV1, countFailStore]

end Day06
